import Mathlib

/-!
# Verification of the FinancialTool calculation core

Shallow embedding of `src/frontend/src/utils/calculations.ts` and the period
calendar of `dateUtils.ts`. JavaScript `Date` values are modelled by the
`JSDate` structure (year / zero-based month / day-of-month / milliseconds
within the day) ordered lexicographically, which agrees with the epoch order
of well-formed dates. Monetary amounts and percentages are modelled by `ℚ`.
Wall-clock reads (`new Date()`) become an explicit `now : JSDate` parameter.
-/

namespace FinancialTool

/-- A calendar instant as JavaScript builds them: `year`, zero-based `month`
(0 = January), one-based `day`, and the milliseconds elapsed within the day. -/
structure JSDate where
  year : Int
  month : Nat
  day : Nat
  ms : Nat
deriving DecidableEq, Repr

/-- The month counter used by `date-fns` month arithmetic: `year * 12 + month`. -/
def JSDate.monthCode (d : JSDate) : Int := d.year * 12 + d.month

/-- Strict order on `JSDate`: lexicographic on (month code, day, ms); on
well-formed dates this is exactly the JavaScript `Date` (epoch) order. -/
def JSDate.ltP (a b : JSDate) : Prop :=
  a.monthCode < b.monthCode ∨
    (a.monthCode = b.monthCode ∧
      (a.day < b.day ∨ (a.day = b.day ∧ a.ms < b.ms)))

/-- Non-strict order on `JSDate`, matching JavaScript `<=` on `Date`s. -/
def JSDate.leP (a b : JSDate) : Prop :=
  a.monthCode < b.monthCode ∨
    (a.monthCode = b.monthCode ∧
      (a.day < b.day ∨ (a.day = b.day ∧ a.ms ≤ b.ms)))

instance (a b : JSDate) : Decidable (JSDate.ltP a b) := by
  unfold JSDate.ltP; infer_instance

instance (a b : JSDate) : Decidable (JSDate.leP a b) := by
  unfold JSDate.leP; infer_instance

/-- Gregorian leap-year rule, as used by JavaScript dates. -/
def isLeapYear (y : Int) : Bool := (y % 4 == 0 && y % 100 != 0) || y % 400 == 0

/-- Days in a zero-based month of a given year. -/
def daysInMonth (y : Int) (m : Nat) : Nat :=
  match m with
  | 0 => 31
  | 1 => if isLeapYear y then 29 else 28
  | 2 => 31
  | 3 => 30
  | 4 => 31
  | 5 => 30
  | 6 => 31
  | 7 => 31
  | 8 => 30
  | 9 => 31
  | 10 => 30
  | _ => 31

/-- `date-fns` `startOfMonth`: first day of the month at 00:00:00.000. -/
def startOfMonth (d : JSDate) : JSDate :=
  { year := d.year, month := d.month, day := 1, ms := 0 }

/-- `date-fns` `endOfMonth`: last day of the month at 23:59:59.999. -/
def endOfMonth (d : JSDate) : JSDate :=
  { year := d.year, month := d.month, day := daysInMonth d.year d.month, ms := 86399999 }

/-- `date-fns` `subMonths`: step the month counter back `n` months, clamping
the day-of-month to the target month's length. -/
def subMonths (d : JSDate) (n : Nat) : JSDate :=
  let t : Int := d.monthCode - n
  let y : Int := t / 12
  let m : Nat := (t % 12).toNat
  { year := y, month := m, day := min d.day (daysInMonth y m), ms := d.ms }

/-- `date-fns` `startOfQuarter`: first day of the containing quarter. -/
def startOfQuarter (d : JSDate) : JSDate :=
  { year := d.year, month := 3 * (d.month / 3), day := 1, ms := 0 }

/-- `date-fns` `endOfQuarter`: last day of the containing quarter at 23:59:59.999. -/
def endOfQuarter (d : JSDate) : JSDate :=
  let m := 3 * (d.month / 3) + 2
  { year := d.year, month := m, day := daysInMonth d.year m, ms := 86399999 }

/-- `date-fns` `startOfYear`. -/
def startOfYear (d : JSDate) : JSDate :=
  { year := d.year, month := 0, day := 1, ms := 0 }

/-- `date-fns` `endOfYear`: December 31 at 23:59:59.999. -/
def endOfYear (d : JSDate) : JSDate :=
  { year := d.year, month := 11, day := 31, ms := 86399999 }

/-- A date range as in `dateUtils.ts` (`end` is a Lean keyword, hence `end_`). -/
structure DateRange where
  start : JSDate
  end_ : JSDate
deriving DecidableEq, Repr

/-- The period units accepted by the calendar and calculation functions. -/
inductive Period where
  | month
  | quarter
  | year
deriving DecidableEq, Repr

/-- English month name of a zero-based month index, as `format(_, "MMMM")`. -/
def monthName : Nat → String
  | 0 => "January"
  | 1 => "February"
  | 2 => "March"
  | 3 => "April"
  | 4 => "May"
  | 5 => "June"
  | 6 => "July"
  | 7 => "August"
  | 8 => "September"
  | 9 => "October"
  | 10 => "November"
  | _ => "December"

/-- Result of `getPeriodInfo`. -/
structure PeriodInfo where
  current : DateRange
  previous : DateRange
  label : String
deriving DecidableEq, Repr

/-- `getCurrentMonth` of `dateUtils.ts`, with the wall clock explicit. -/
def getCurrentMonth (now : JSDate) : DateRange :=
  { start := startOfMonth now, end_ := endOfMonth now }

/-- `getCurrentQuarter` of `dateUtils.ts`. -/
def getCurrentQuarter (now : JSDate) : DateRange :=
  { start := startOfQuarter now, end_ := endOfQuarter now }

/-- `getCurrentYear` of `dateUtils.ts`. -/
def getCurrentYear (now : JSDate) : DateRange :=
  { start := startOfYear now, end_ := endOfYear now }

/-- `getPeriodInfo` of `dateUtils.ts`: current and previous calendar ranges
for the given unit, evaluated at the explicit wall-clock instant `now`. -/
def getPeriodInfo (period : Period) (now : JSDate) : PeriodInfo :=
  match period with
  | .month =>
    let current := getCurrentMonth now
    let previousMonth := subMonths now 1
    { current := current
      previous := { start := startOfMonth previousMonth, end_ := endOfMonth previousMonth }
      label := monthName current.start.month ++ " " ++ toString current.start.year }
  | .quarter =>
    let current := getCurrentQuarter now
    let previousQuarter := subMonths now 3
    { current := current
      previous := { start := startOfQuarter previousQuarter, end_ := endOfQuarter previousQuarter }
      label := "Q" ++ toString (now.month / 3 + 1) ++ " " ++ toString current.start.year }
  | .year =>
    let current := getCurrentYear now
    let previousYear : JSDate := { year := now.year - 1, month := 0, day := 1, ms := 0 }
    { current := current
      previous := { start := startOfYear previousYear, end_ := endOfYear previousYear }
      label := toString current.start.year }

/-! ## Data model of `calculations.ts` -/

/-- The `type` field of a transaction. -/
inductive TxType where
  | income
  | expense
deriving DecidableEq, Repr

/-- `Transaction` of `calculations.ts`; the ISO date string becomes a `JSDate`
(the source parses it with `new Date(...)` before every comparison). -/
structure Transaction where
  id : String
  amount : ℚ
  type : TxType
  date : JSDate
  category : String
  description : String
deriving DecidableEq, Repr

/-- `BudgetData` of `calculations.ts`. -/
structure BudgetData where
  category : String
  budgetAmount : ℚ
  spentAmount : ℚ
  period : Period
deriving DecidableEq, Repr

/-- One entry of the `topCategories` list of a `FinancialSummary`. -/
structure TopCategory where
  category : String
  amount : ℚ
  percentage : ℚ
deriving DecidableEq, Repr

/-- `FinancialSummary` of `calculations.ts`. -/
structure FinancialSummary where
  totalIncome : ℚ
  totalExpenses : ℚ
  netSavings : ℚ
  savingsRate : ℚ
  topCategories : List TopCategory
deriving DecidableEq, Repr

/-- The three-way budget status. -/
inductive BudgetStatus where
  | under
  | over
  | ontrack
deriving DecidableEq, Repr

/-- Return type of `calculateBudgetPerformance`: the spread `{...budget}`
together with the added `status` and `percentUsed` fields. -/
structure BudgetPerformance extends BudgetData where
  status : BudgetStatus
  percentUsed : ℚ
deriving DecidableEq, Repr

/-- The trend classification. -/
inductive Trending where
  | up
  | down
  | stable
deriving DecidableEq, Repr

/-- Return type of `calculateSpendingTrends`. -/
structure TrendResult where
  current : ℚ
  previous : ℚ
  changePercent : ℚ
  trending : Trending
deriving DecidableEq, Repr

/-! ## The calculation functions -/

/-- The range test of the `filter` in `calculateFinancialSummary`:
`transactionDate >= range.start && transactionDate <= range.end`. -/
def inRange (r : DateRange) (d : JSDate) : Prop := r.start.leP d ∧ d.leP r.end_

instance (r : DateRange) (d : JSDate) : Decidable (inRange r d) := by
  unfold inRange; infer_instance

/-- The `reduce((sum, t) => sum + t.amount, 0)` idiom. -/
def sumAmounts (l : List Transaction) : ℚ :=
  l.foldl (fun sum t => sum + t.amount) 0

/-- One step of the category-totals `reduce`: JavaScript object update, which
overwrites the value of an existing key in place and appends a new key at the
end (string keys enumerate in insertion order). -/
def addToCategory (acc : List (String × ℚ)) (category : String) (amount : ℚ) :
    List (String × ℚ) :=
  match acc with
  | [] => [(category, amount)]
  | (c, a) :: rest =>
    if c = category then (c, a + amount) :: rest
    else (c, a) :: addToCategory rest category amount

/-- The `categoryTotals` accumulator of `calculateFinancialSummary`, as the
insertion-ordered entry list of the JavaScript object. -/
def categoryTotals (expenses : List Transaction) : List (String × ℚ) :=
  expenses.foldl (fun acc t => addToCategory acc t.category t.amount) []

/-- Insert into a descending-by-`amount` list, before the first strictly or
equally smaller element; used to model the stable JavaScript
`sort((a, b) => b.amount - a.amount)`. -/
def insertByAmountDesc (x : TopCategory) : List TopCategory → List TopCategory
  | [] => [x]
  | y :: ys =>
    if y.amount ≤ x.amount then x :: y :: ys
    else y :: insertByAmountDesc x ys

/-- Stable descending sort by `amount`, the behaviour of the JavaScript
`Array.prototype.sort` (stable since ES2019) under `(a, b) => b.amount - a.amount`. -/
def sortByAmountDesc : List TopCategory → List TopCategory
  | [] => []
  | x :: xs => insertByAmountDesc x (sortByAmountDesc xs)

/-- `calculateFinancialSummary` of `calculations.ts`. -/
def calculateFinancialSummary (transactions : List Transaction)
    (periodRange : DateRange) : FinancialSummary :=
  let periodTransactions := transactions.filter fun t => decide (inRange periodRange t.date)
  let totalIncome := sumAmounts (periodTransactions.filter fun t => t.type == TxType.income)
  let totalExpenses := sumAmounts (periodTransactions.filter fun t => t.type == TxType.expense)
  let netSavings := totalIncome - totalExpenses
  let savingsRate := if totalIncome > 0 then netSavings / totalIncome * 100 else 0
  let totals := categoryTotals (periodTransactions.filter fun t => t.type == TxType.expense)
  let topCategories :=
    (sortByAmountDesc (totals.map fun p =>
      { category := p.1
        amount := p.2
        percentage := if totalExpenses > 0 then p.2 / totalExpenses * 100 else 0 })).take 5
  { totalIncome := totalIncome
    totalExpenses := totalExpenses
    netSavings := netSavings
    savingsRate := savingsRate
    topCategories := topCategories }

/-- `calculateBudgetPerformance` of `calculations.ts`, with the wall clock
read by its `getPeriodInfo(period)` call made explicit as `now`. -/
def calculateBudgetPerformance (transactions : List Transaction)
    (budgets : List BudgetData) (period : Period) (now : JSDate) :
    List BudgetPerformance :=
  let periodInfo := getPeriodInfo period now
  budgets.map fun budget =>
    let categoryTransactions := transactions.filter fun t =>
      t.category == budget.category &&
      t.type == TxType.expense &&
      decide (periodInfo.current.start.leP t.date) &&
      decide (t.date.leP periodInfo.current.end_)
    let spentAmount := sumAmounts categoryTransactions
    let percentUsed := if budget.budgetAmount > 0 then spentAmount / budget.budgetAmount * 100 else 0
    let status : BudgetStatus :=
      if percentUsed > 100 then .over
      else if percentUsed > 80 then .ontrack
      else .under
    { toBudgetData := { budget with spentAmount := spentAmount }
      status := status
      percentUsed := percentUsed }

/-- `calculateSpendingTrends` of `calculations.ts`, with the wall clock
explicit as `now`. -/
def calculateSpendingTrends (transactions : List Transaction) (period : Period)
    (now : JSDate) : TrendResult :=
  let periodInfo := getPeriodInfo period now
  let currentSpending := sumAmounts (transactions.filter fun t =>
    t.type == TxType.expense &&
    decide (periodInfo.current.start.leP t.date) &&
    decide (t.date.leP periodInfo.current.end_))
  let previousSpending := sumAmounts (transactions.filter fun t =>
    t.type == TxType.expense &&
    decide (periodInfo.previous.start.leP t.date) &&
    decide (t.date.leP periodInfo.previous.end_))
  let changePercent :=
    if previousSpending > 0 then (currentSpending - previousSpending) / previousSpending * 100
    else 0
  let trending : Trending :=
    if |changePercent| > 5 then (if changePercent > 0 then .up else .down)
    else .stable
  { current := currentSpending
    previous := previousSpending
    changePercent := changePercent
    trending := trending }

/-- The insight messages of `generateSpendingInsights`, one constructor per
template string, carrying the data interpolated into the string. -/
inductive Insight where
  | lowSavingsRate
  | excellentSavingsRate
  | overBudget (count : Nat) (categories : List String)
  | spendingIncreased (changePercent : ℚ)
  | spendingDecreased (changePercent : ℚ)
  | topCategoryConcentration (category : String) (percentage : ℚ)
deriving DecidableEq, Repr

/-- `generateSpendingInsights` of `calculations.ts`: the successive
`insights.push(...)` calls become successive list appends. -/
def generateSpendingInsights (summary : FinancialSummary)
    (budgetPerformance : List BudgetPerformance) (trends : TrendResult) :
    List Insight :=
  let insights : List Insight := []
  let insights :=
    if summary.savingsRate < 10 then insights ++ [.lowSavingsRate]
    else if summary.savingsRate > 20 then insights ++ [.excellentSavingsRate]
    else insights
  let overBudgetCategories := budgetPerformance.filter fun b => b.status == BudgetStatus.over
  let insights :=
    if overBudgetCategories.length > 0 then
      insights ++ [.overBudget overBudgetCategories.length
        (overBudgetCategories.map fun c => c.category)]
    else insights
  let insights :=
    if trends.trending = Trending.up ∧ trends.changePercent > 15 then
      insights ++ [.spendingIncreased trends.changePercent]
    else if trends.trending = Trending.down ∧ trends.changePercent < -10 then
      insights ++ [.spendingDecreased trends.changePercent]
    else insights
  let insights :=
    match summary.topCategories with
    | [] => insights
    | topCategory :: _ =>
      if topCategory.percentage > 30 then
        insights ++ [.topCategoryConcentration topCategory.category topCategory.percentage]
      else insights
  insights

/-! ## Helper lemmas -/

/-- A `foldl`-style amount sum equals `init` plus the sum of the mapped amounts. -/
theorem foldl_amount (l : List Transaction) (init : ℚ) :
    l.foldl (fun sum t => sum + t.amount) init = init + (l.map fun t => t.amount).sum := by
  induction l generalizing init with
  | nil => simp
  | cons t l ih => simp [ih, add_assoc]

/-- `sumAmounts` is the sum of the amounts. -/
theorem sumAmounts_eq_sum (l : List Transaction) :
    sumAmounts l = (l.map fun t => t.amount).sum := by
  simpa using foldl_amount l 0

/-- `sumAmounts` of a list of nonnegative amounts is nonnegative. -/
theorem sumAmounts_nonneg (l : List Transaction) (h : ∀ t ∈ l, 0 ≤ t.amount) :
    0 ≤ sumAmounts l := by
  rw [sumAmounts_eq_sum]
  refine List.sum_nonneg ?_
  intro x hx
  obtain ⟨t, ht, rfl⟩ := List.mem_map.mp hx
  exact h t ht

/-- Chaining `≤`, `<`, `≤` around the `JSDate` order yields a contradiction. -/
theorem JSDate.not_le_lt_le (a b c : JSDate) (hab : a.leP b) (hbc : b.ltP c)
    (hca : c.leP a) : False := by
  simp only [JSDate.leP, JSDate.ltP] at hab hbc hca
  omega

/-- For every unit and instant, the previous range ends strictly before the
current range starts. -/
theorem prev_end_lt_current_start (p : Period) (now : JSDate) :
    ((getPeriodInfo p now).previous.end_).ltP ((getPeriodInfo p now).current.start) := by
  cases p <;>
    simp only [getPeriodInfo, getCurrentMonth, getCurrentQuarter, getCurrentYear,
      startOfMonth, endOfMonth, startOfQuarter, endOfQuarter, startOfYear, endOfYear,
      subMonths, JSDate.ltP, JSDate.monthCode] <;>
    omega

/-- C7: for every unit in {month, quarter, year} and every wall-clock instant,
the previous range returned by `getPeriodInfo` ends strictly before the current
range starts, and no date lies in both ranges — including across year
boundaries. -/
theorem C7_period_ranges_disjoint (p : Period) (now : JSDate) :
    ((getPeriodInfo p now).previous.end_).ltP ((getPeriodInfo p now).current.start) ∧
    ∀ d : JSDate, inRange (getPeriodInfo p now).previous d →
      ¬ inRange (getPeriodInfo p now).current d := by
  refine ⟨prev_end_lt_current_start p now, ?_⟩
  intro d hprev hcur
  exact JSDate.not_le_lt_le d (getPeriodInfo p now).previous.end_
    (getPeriodInfo p now).current.start hprev.2 (prev_end_lt_current_start p now) hcur.1

/-- Witness for C7 at a concrete instant: January 15, 2024 — the previous month
range (December 2023) does not contain the current month's start. -/
theorem C7_period_ranges_disjoint_witness :
    ¬ inRange (getPeriodInfo Period.month ⟨2024, 0, 15, 0⟩).current ⟨2023, 11, 31, 0⟩ :=
  (C7_period_ranges_disjoint Period.month ⟨2024, 0, 15, 0⟩).2 ⟨2023, 11, 31, 0⟩ (by decide)

/-- C1: `calculateFinancialSummary` filters to exactly the transactions whose
date lies within the range inclusive of both endpoints, sums amounts of the
filtered income and expense transactions into `totalIncome` and
`totalExpenses`, sets `netSavings = totalIncome − totalExpenses`, and on empty
input returns all-zero totals and `topCategories = []`. -/
theorem C1_summary_totals (ts : List Transaction) (r : DateRange) :
    (∀ t : Transaction, t ∈ ts.filter (fun t => decide (inRange r t.date)) ↔
      t ∈ ts ∧ r.start.leP t.date ∧ t.date.leP r.end_) ∧
    (calculateFinancialSummary ts r).totalIncome =
      (((ts.filter fun t => decide (inRange r t.date)).filter
          fun t => t.type == TxType.income).map fun t => t.amount).sum ∧
    (calculateFinancialSummary ts r).totalExpenses =
      (((ts.filter fun t => decide (inRange r t.date)).filter
          fun t => t.type == TxType.expense).map fun t => t.amount).sum ∧
    (calculateFinancialSummary ts r).netSavings =
      (calculateFinancialSummary ts r).totalIncome -
        (calculateFinancialSummary ts r).totalExpenses ∧
    calculateFinancialSummary [] r =
      { totalIncome := 0, totalExpenses := 0, netSavings := 0, savingsRate := 0,
        topCategories := [] } := by
  refine ⟨?_, ?_, ?_, ?_, ?_⟩
  · intro t
    simp [List.mem_filter, inRange, and_assoc]
  · simp [calculateFinancialSummary, sumAmounts_eq_sum]
  · simp [calculateFinancialSummary, sumAmounts_eq_sum]
  · simp [calculateFinancialSummary]
  · simp [calculateFinancialSummary, sumAmounts, categoryTotals, sortByAmountDesc]

/-- C3: every budget result's `status` is `over` exactly when
`percentUsed > 100`, `ontrack` exactly when `80 < percentUsed ≤ 100`, and
`under` otherwise; in particular 80 exactly is `under` and 100 exactly is
`ontrack`. -/
theorem C3_budget_status (ts : List Transaction) (budgets : List BudgetData)
    (p : Period) (now : JSDate) (r : BudgetPerformance)
    (hr : r ∈ calculateBudgetPerformance ts budgets p now) :
    (r.status = BudgetStatus.over ↔ 100 < r.percentUsed) ∧
    (r.status = BudgetStatus.ontrack ↔ 80 < r.percentUsed ∧ r.percentUsed ≤ 100) ∧
    (r.status = BudgetStatus.under ↔ r.percentUsed ≤ 80) := by
  simp only [calculateBudgetPerformance, List.mem_map] at hr
  obtain ⟨b, hb, rfl⟩ := hr
  dsimp only
  generalize (if b.budgetAmount > 0
    then sumAmounts (ts.filter fun t =>
      t.category == b.category && t.type == TxType.expense &&
      decide ((getPeriodInfo p now).current.start.leP t.date) &&
      decide (t.date.leP (getPeriodInfo p now).current.end_)) / b.budgetAmount * 100
    else 0) = pu
  split_ifs with h1 h2 <;>
    refine ⟨?_, ?_, ?_⟩ <;> simp <;> push_neg at * <;>
    first
      | linarith
      | (constructor <;> linarith)
      | (intro h; linarith)

/-- Witness for C3: a single 100-budget with 80 spent in January 2024 is
classified `under` with `percentUsed = 80`. -/
theorem C3_budget_status_witness :
    (let r : BudgetPerformance :=
      { category := "Food", budgetAmount := 100, spentAmount := 80,
        period := Period.month, status := BudgetStatus.under, percentUsed := 80 }
     (r.status = BudgetStatus.over ↔ 100 < r.percentUsed) ∧
     (r.status = BudgetStatus.ontrack ↔ 80 < r.percentUsed ∧ r.percentUsed ≤ 100) ∧
     (r.status = BudgetStatus.under ↔ r.percentUsed ≤ 80)) :=
  C3_budget_status
    [⟨"1", 80, TxType.expense, ⟨2024, 0, 10, 0⟩, "Food", ""⟩]
    [⟨"Food", 100, 0, Period.month⟩] Period.month ⟨2024, 0, 15, 0⟩ _
    (by norm_num [calculateBudgetPerformance, getPeriodInfo, getCurrentMonth,
      startOfMonth, endOfMonth, subMonths, sumAmounts, JSDate.leP, JSDate.monthCode,
      daysInMonth, isLeapYear, List.filter, BudgetPerformance.mk.injEq, BudgetData.mk.injEq])

/-- C4: `calculateSpendingTrends` classifies `trending` as `up` exactly when
`changePercent > 5`, `down` exactly when `changePercent < −5`, and `stable`
exactly when `|changePercent| ≤ 5`; exactly ±5 is `stable`. -/
theorem C4_trend_classification (ts : List Transaction) (p : Period) (now : JSDate) :
    ((calculateSpendingTrends ts p now).trending = Trending.up ↔
      5 < (calculateSpendingTrends ts p now).changePercent) ∧
    ((calculateSpendingTrends ts p now).trending = Trending.down ↔
      (calculateSpendingTrends ts p now).changePercent < -5) ∧
    ((calculateSpendingTrends ts p now).trending = Trending.stable ↔
      |(calculateSpendingTrends ts p now).changePercent| ≤ 5) := by
  unfold calculateSpendingTrends
  dsimp only
  generalize (if 0 < sumAmounts (ts.filter fun t =>
        t.type == TxType.expense &&
        decide ((getPeriodInfo p now).previous.start.leP t.date) &&
        decide (t.date.leP (getPeriodInfo p now).previous.end_))
      then (sumAmounts (ts.filter fun t =>
          t.type == TxType.expense &&
          decide ((getPeriodInfo p now).current.start.leP t.date) &&
          decide (t.date.leP (getPeriodInfo p now).current.end_)) -
        sumAmounts (ts.filter fun t =>
          t.type == TxType.expense &&
          decide ((getPeriodInfo p now).previous.start.leP t.date) &&
          decide (t.date.leP (getPeriodInfo p now).previous.end_))) /
        sumAmounts (ts.filter fun t =>
          t.type == TxType.expense &&
          decide ((getPeriodInfo p now).previous.start.leP t.date) &&
          decide (t.date.leP (getPeriodInfo p now).previous.end_)) * 100
      else 0) = cp
  split_ifs with h1 h2 <;> refine ⟨?_, ?_, ?_⟩ <;> simp <;>
    rcases abs_cases cp with ⟨he, hs⟩ | ⟨he, hs⟩ <;> linarith

/-- C6: the two savings-rate insight rules are mutually exclusive: the
low-savings warning is emitted exactly when `savingsRate < 10`, the
positive-savings message exactly when `savingsRate > 20`, and in the closed
band [10, 20] neither is emitted. -/
theorem C6_savings_insight_rules (summary : FinancialSummary)
    (bp : List BudgetPerformance) (trends : TrendResult) :
    (Insight.lowSavingsRate ∈ generateSpendingInsights summary bp trends ↔
      summary.savingsRate < 10) ∧
    (Insight.excellentSavingsRate ∈ generateSpendingInsights summary bp trends ↔
      20 < summary.savingsRate) ∧
    (10 ≤ summary.savingsRate → summary.savingsRate ≤ 20 →
      Insight.lowSavingsRate ∉ generateSpendingInsights summary bp trends ∧
      Insight.excellentSavingsRate ∉ generateSpendingInsights summary bp trends) := by
  obtain ⟨ti, te, ns, sr, tc⟩ := summary
  cases tc with
  | nil =>
    unfold generateSpendingInsights
    dsimp only
    split_ifs <;> refine ⟨?_, ?_, ?_⟩ <;>
      simp only [List.mem_append, List.mem_singleton, List.not_mem_nil, List.mem_cons,
        reduceCtorEq, or_false, false_or, or_self, iff_true, iff_false, true_iff, false_iff,
        not_true, not_false_iff, and_true, true_and, and_false, false_and, implies_true,
        not_or, List.nil_append, List.append_nil] <;>
      first
        | trivial
        | linarith
        | (intro hx; linarith)
        | (intro hx hy; linarith)
  | cons hd tl =>
    unfold generateSpendingInsights
    dsimp only
    split_ifs <;> refine ⟨?_, ?_, ?_⟩ <;>
      simp only [List.mem_append, List.mem_singleton, List.not_mem_nil, List.mem_cons,
        reduceCtorEq, or_false, false_or, or_self, iff_true, iff_false, true_iff, false_iff,
        not_true, not_false_iff, and_true, true_and, and_false, false_and, implies_true,
        not_or, List.nil_append, List.append_nil] <;>
      first
        | trivial
        | linarith
        | (intro hx; linarith)
        | (intro hx hy; linarith)

/-- Witness for C6 at `savingsRate = 15`: neither savings message is emitted. -/
theorem C6_savings_insight_rules_witness :
    Insight.lowSavingsRate ∉
        generateSpendingInsights ⟨100, 85, 15, 15, []⟩ [] ⟨0, 0, 0, Trending.stable⟩ ∧
      Insight.excellentSavingsRate ∉
        generateSpendingInsights ⟨100, 85, 15, 15, []⟩ [] ⟨0, 0, 0, Trending.stable⟩ :=
  (C6_savings_insight_rules ⟨100, 85, 15, 15, []⟩ [] ⟨0, 0, 0, Trending.stable⟩).2.2
    (by norm_num) (by norm_num)

/-- C9: `calculateBudgetPerformance` returns exactly one result per input
budget, in input order, and each result keeps the corresponding budget's
`category`, `budgetAmount` and `period` unchanged (only `spentAmount` is
recomputed, with `percentUsed` and `status` added); the embedding is a pure
function of its inputs, so neither input list is mutated. -/
theorem C9_budget_shape (ts : List Transaction) (budgets : List BudgetData)
    (p : Period) (now : JSDate) :
    (calculateBudgetPerformance ts budgets p now).length = budgets.length ∧
    ∀ i : Nat,
      ((calculateBudgetPerformance ts budgets p now)[i]?.map fun r => r.category) =
        (budgets[i]?.map fun b => b.category) ∧
      ((calculateBudgetPerformance ts budgets p now)[i]?.map fun r => r.budgetAmount) =
        (budgets[i]?.map fun b => b.budgetAmount) ∧
      ((calculateBudgetPerformance ts budgets p now)[i]?.map fun r => r.period) =
        (budgets[i]?.map fun b => b.period) := by
  unfold calculateBudgetPerformance
  dsimp only
  refine ⟨List.length_map _ _, ?_⟩
  intro i
  refine ⟨?_, ?_, ?_⟩ <;>
    · rw [List.getElem?_map]
      cases budgets[i]? <;> rfl

/-- `generateSpendingInsights` is the concatenation of its four rule segments,
in source order. -/
theorem generateSpendingInsights_decompose (summary : FinancialSummary)
    (bp : List BudgetPerformance) (trends : TrendResult) :
    generateSpendingInsights summary bp trends =
      (if summary.savingsRate < 10 then [Insight.lowSavingsRate]
       else if summary.savingsRate > 20 then [Insight.excellentSavingsRate] else []) ++
      (if 0 < (bp.filter fun b => b.status == BudgetStatus.over).length then
         [Insight.overBudget (bp.filter fun b => b.status == BudgetStatus.over).length
           ((bp.filter fun b => b.status == BudgetStatus.over).map fun c => c.category)]
       else []) ++
      (if trends.trending = Trending.up ∧ trends.changePercent > 15 then
         [Insight.spendingIncreased trends.changePercent]
       else if trends.trending = Trending.down ∧ trends.changePercent < -10 then
         [Insight.spendingDecreased trends.changePercent]
       else []) ++
      (match summary.topCategories with
       | [] => []
       | topCategory :: _ =>
         if topCategory.percentage > 30 then
           [Insight.topCategoryConcentration topCategory.category topCategory.percentage]
         else []) := by
  obtain ⟨ti, te, ns, sr, tc⟩ := summary
  cases tc <;> (unfold generateSpendingInsights; dsimp only; split_ifs <;> simp)

/-- C10: `generateSpendingInsights` returns at most 4 messages, always in the
fixed rule order (savings rate, over-budget, trend, concentration); the
spending-increase and spending-decrease messages are mutually exclusive; and
the concentration message appears exactly when `topCategories` is non-empty
with its first entry's percentage above 30. -/
theorem C10_insight_shape (summary : FinancialSummary)
    (bp : List BudgetPerformance) (trends : TrendResult) :
    (generateSpendingInsights summary bp trends).length ≤ 4 ∧
    generateSpendingInsights summary bp trends =
      (if summary.savingsRate < 10 then [Insight.lowSavingsRate]
       else if summary.savingsRate > 20 then [Insight.excellentSavingsRate] else []) ++
      (if 0 < (bp.filter fun b => b.status == BudgetStatus.over).length then
         [Insight.overBudget (bp.filter fun b => b.status == BudgetStatus.over).length
           ((bp.filter fun b => b.status == BudgetStatus.over).map fun c => c.category)]
       else []) ++
      (if trends.trending = Trending.up ∧ trends.changePercent > 15 then
         [Insight.spendingIncreased trends.changePercent]
       else if trends.trending = Trending.down ∧ trends.changePercent < -10 then
         [Insight.spendingDecreased trends.changePercent]
       else []) ++
      (match summary.topCategories with
       | [] => []
       | topCategory :: _ =>
         if topCategory.percentage > 30 then
           [Insight.topCategoryConcentration topCategory.category topCategory.percentage]
         else []) ∧
    (∀ pc qd : ℚ, ¬(Insight.spendingIncreased pc ∈ generateSpendingInsights summary bp trends ∧
      Insight.spendingDecreased qd ∈ generateSpendingInsights summary bp trends)) ∧
    ((∃ c pc, Insight.topCategoryConcentration c pc ∈ generateSpendingInsights summary bp trends) ↔
      ∃ e, summary.topCategories.head? = some e ∧ 30 < e.percentage) := by
  refine ⟨?_, generateSpendingInsights_decompose summary bp trends, ?_, ?_⟩
  · rw [generateSpendingInsights_decompose]
    obtain ⟨ti, te, ns, sr, tc⟩ := summary
    cases tc <;> (dsimp only; split_ifs <;> simp)
  · intro pc qd
    rw [generateSpendingInsights_decompose]
    obtain ⟨ti, te, ns, sr, tc⟩ := summary
    cases tc <;> (dsimp only; split_ifs <;> simp)
  · rw [generateSpendingInsights_decompose]
    obtain ⟨ti, te, ns, sr, tc⟩ := summary
    cases tc <;> (dsimp only; split_ifs <;> simp) <;> try linarith

/-- Inserting into the descending sort is a permutation of consing. -/
theorem insertByAmountDesc_perm (x : TopCategory) (l : List TopCategory) :
    (insertByAmountDesc x l).Perm (x :: l) := by
  induction l with
  | nil => exact List.Perm.refl _
  | cons y ys ih =>
    unfold insertByAmountDesc
    split_ifs with h
    · exact List.Perm.refl _
    · exact (ih.cons y).trans (List.Perm.swap x y ys)

/-- The descending sort permutes its input. -/
theorem sortByAmountDesc_perm (l : List TopCategory) :
    (sortByAmountDesc l).Perm l := by
  induction l with
  | nil => exact List.Perm.refl _
  | cons x xs ih => exact (insertByAmountDesc_perm x (sortByAmountDesc xs)).trans (ih.cons x)

/-- Every entry of `topCategories` arises from a `categoryTotals` pair of the
in-range expense transactions, with the percentage formula attached. -/
theorem mem_topCategories (ts : List Transaction) (r : DateRange)
    (e : TopCategory) (he : e ∈ (calculateFinancialSummary ts r).topCategories) :
    ∃ p ∈ categoryTotals ((ts.filter fun t => decide (inRange r t.date)).filter
        fun t => t.type == TxType.expense),
      e = { category := p.1, amount := p.2,
            percentage :=
              if (calculateFinancialSummary ts r).totalExpenses > 0 then
                p.2 / (calculateFinancialSummary ts r).totalExpenses * 100
              else 0 } := by
  simp only [calculateFinancialSummary] at he ⊢
  have h1 := (List.take_sublist 5 _).subset he
  have h2 := (sortByAmountDesc_perm _).subset h1
  obtain ⟨p, hp, rfl⟩ := List.mem_map.mp h2
  exact ⟨p, hp, rfl⟩

/-- Unfolding lemma for the `savingsRate` field. -/
theorem savingsRate_def (ts : List Transaction) (r : DateRange) :
    (calculateFinancialSummary ts r).savingsRate =
      if (calculateFinancialSummary ts r).totalIncome > 0 then
        (calculateFinancialSummary ts r).netSavings /
          (calculateFinancialSummary ts r).totalIncome * 100
      else 0 := rfl

/-- Unfolding lemma for the `totalIncome` field. -/
theorem totalIncome_def (ts : List Transaction) (r : DateRange) :
    (calculateFinancialSummary ts r).totalIncome =
      sumAmounts ((ts.filter fun t => decide (inRange r t.date)).filter
        fun t => t.type == TxType.income) := rfl

/-- Unfolding lemma for the `previous` field of the trend result. -/
theorem trends_previous_def (ts : List Transaction) (p : Period) (now : JSDate) :
    (calculateSpendingTrends ts p now).previous =
      sumAmounts (ts.filter fun t =>
        t.type == TxType.expense &&
        decide ((getPeriodInfo p now).previous.start.leP t.date) &&
        decide (t.date.leP (getPeriodInfo p now).previous.end_)) := rfl

/-- Unfolding lemma for the `changePercent` field of the trend result. -/
theorem trends_changePercent_def (ts : List Transaction) (p : Period) (now : JSDate) :
    (calculateSpendingTrends ts p now).changePercent =
      if (calculateSpendingTrends ts p now).previous > 0 then
        ((calculateSpendingTrends ts p now).current -
          (calculateSpendingTrends ts p now).previous) /
          (calculateSpendingTrends ts p now).previous * 100
      else 0 := rfl

/-- Every budget-performance result comes from an input budget, keeps its
`budgetAmount`, and carries the guarded `percentUsed` ratio. -/
theorem mem_budgetPerformance (ts : List Transaction) (budgets : List BudgetData)
    (p : Period) (now : JSDate) (res : BudgetPerformance)
    (h : res ∈ calculateBudgetPerformance ts budgets p now) :
    ∃ b ∈ budgets, res.budgetAmount = b.budgetAmount ∧
      res.percentUsed =
        if res.budgetAmount > 0 then res.spentAmount / res.budgetAmount * 100 else 0 := by
  simp only [calculateBudgetPerformance, List.mem_map] at h
  obtain ⟨b, hb, rfl⟩ := h
  exact ⟨b, hb, rfl, rfl⟩

/-- C2: with nonnegative transaction amounts and budget amounts, every
degenerate-denominator ratio is defined as 0 instead of faulting:
`savingsRate = 0` when `totalIncome = 0`, each `topCategories` percentage is 0
when `totalExpenses = 0`, `percentUsed = 0` when `budgetAmount = 0`, and
`changePercent = 0` when previous-period spending is 0; otherwise the ratios
are `netSavings/totalIncome×100`, `amount/totalExpenses×100`,
`spentAmount/budgetAmount×100` and `(current−previous)/previous×100`. -/
theorem C2_zero_denominators (transactions : List Transaction)
    (budgets : List BudgetData) (r : DateRange) (p : Period) (now : JSDate)
    (hamt : ∀ t ∈ transactions, 0 ≤ t.amount)
    (hbud : ∀ b ∈ budgets, 0 ≤ b.budgetAmount) :
    ((calculateFinancialSummary transactions r).totalIncome = 0 →
      (calculateFinancialSummary transactions r).savingsRate = 0) ∧
    ((calculateFinancialSummary transactions r).totalIncome ≠ 0 →
      (calculateFinancialSummary transactions r).savingsRate =
        (calculateFinancialSummary transactions r).netSavings /
          (calculateFinancialSummary transactions r).totalIncome * 100) ∧
    ((calculateFinancialSummary transactions r).totalExpenses = 0 →
      ∀ e ∈ (calculateFinancialSummary transactions r).topCategories,
        e.percentage = 0) ∧
    ((calculateFinancialSummary transactions r).totalExpenses ≠ 0 →
      ∀ e ∈ (calculateFinancialSummary transactions r).topCategories,
        e.percentage =
          e.amount / (calculateFinancialSummary transactions r).totalExpenses * 100) ∧
    (∀ res ∈ calculateBudgetPerformance transactions budgets p now,
      (res.budgetAmount = 0 → res.percentUsed = 0) ∧
      (res.budgetAmount ≠ 0 →
        res.percentUsed = res.spentAmount / res.budgetAmount * 100)) ∧
    ((calculateSpendingTrends transactions p now).previous = 0 →
      (calculateSpendingTrends transactions p now).changePercent = 0) ∧
    ((calculateSpendingTrends transactions p now).previous ≠ 0 →
      (calculateSpendingTrends transactions p now).changePercent =
        ((calculateSpendingTrends transactions p now).current -
          (calculateSpendingTrends transactions p now).previous) /
          (calculateSpendingTrends transactions p now).previous * 100) := by
  refine ⟨?_, ?_, ?_, ?_, ?_, ?_, ?_⟩
  · intro h
    rw [savingsRate_def, h]
    simp
  · intro h
    have h0 : 0 ≤ (calculateFinancialSummary transactions r).totalIncome := by
      rw [totalIncome_def]
      exact sumAmounts_nonneg _ fun t ht =>
        hamt t (List.mem_filter.mp (List.mem_filter.mp ht).1).1
    rw [savingsRate_def, if_pos (lt_of_le_of_ne h0 (Ne.symm h))]
  · intro h e he
    obtain ⟨q, hq, rfl⟩ := mem_topCategories transactions r e he
    rw [h]
    simp
  · intro h e he
    have h0 : 0 ≤ (calculateFinancialSummary transactions r).totalExpenses := by
      exact sumAmounts_nonneg _ fun t ht =>
        hamt t (List.mem_filter.mp (List.mem_filter.mp ht).1).1
    obtain ⟨q, hq, rfl⟩ := mem_topCategories transactions r e he
    rw [if_pos (lt_of_le_of_ne h0 (Ne.symm h))]
  · intro res hres
    obtain ⟨b, hb, hba, hpu⟩ := mem_budgetPerformance transactions budgets p now res hres
    constructor
    · intro h
      rw [hpu, h]
      simp
    · intro h
      have h0 : 0 ≤ res.budgetAmount := hba ▸ hbud b hb
      rw [hpu, if_pos (lt_of_le_of_ne h0 (Ne.symm h))]
  · intro h
    rw [trends_changePercent_def, h]
    simp
  · intro h
    have h0 : 0 ≤ (calculateSpendingTrends transactions p now).previous := by
      rw [trends_previous_def]
      exact sumAmounts_nonneg _ fun t ht => hamt t (List.mem_filter.mp ht).1
    rw [trends_changePercent_def, if_pos (lt_of_le_of_ne h0 (Ne.symm h))]

/-- Witness for C2 on a transaction list with no previous-period expenses, a
zero income, and a zero budget: all guarded ratios are 0. -/
theorem C2_zero_denominators_witness :
    (calculateFinancialSummary [] ⟨⟨2024, 0, 1, 0⟩, ⟨2024, 0, 31, 86399999⟩⟩).savingsRate = 0 ∧
    (calculateSpendingTrends [] Period.month ⟨2024, 0, 15, 0⟩).changePercent = 0 :=
  ⟨(C2_zero_denominators [] [] ⟨⟨2024, 0, 1, 0⟩, ⟨2024, 0, 31, 86399999⟩⟩ Period.month
      ⟨2024, 0, 15, 0⟩ (by simp) (by simp)).1 (by rw [totalIncome_def]; simp [sumAmounts]),
   (C2_zero_denominators [] [] ⟨⟨2024, 0, 1, 0⟩, ⟨2024, 0, 31, 86399999⟩⟩ Period.month
      ⟨2024, 0, 15, 0⟩ (by simp) (by simp)).2.2.2.2.2.1
      (by rw [trends_previous_def]; simp [sumAmounts])⟩

/-- The distinct elements of a list in first-encounter order (JavaScript
object keys enumerate in insertion order). -/
def firstOccurrences : List String → List String
  | [] => []
  | c :: cs => c :: (firstOccurrences cs).filter fun x => decide (x ≠ c)

/-- Total amount of the transactions of one category. -/
def categorySum (l : List Transaction) (c : String) : ℚ :=
  ((l.filter fun t => t.category == c).map fun t => t.amount).sum

/-- `firstOccurrences` has the same members as its input. -/
theorem mem_firstOccurrences (xs : List String) (c : String) :
    c ∈ firstOccurrences xs ↔ c ∈ xs := by
  induction xs with
  | nil => simp [firstOccurrences]
  | cons x xs ih =>
    by_cases hc : c = x
    · subst hc
      simp [firstOccurrences]
    · simp only [firstOccurrences, List.mem_cons, List.mem_filter, ih,
        decide_eq_true_eq]
      constructor
      · rintro (rfl | ⟨h, _⟩)
        · exact Or.inl rfl
        · exact Or.inr h
      · rintro (rfl | h)
        · exact Or.inl rfl
        · exact Or.inr ⟨h, hc⟩

/-- `firstOccurrences` has no duplicates. -/
theorem firstOccurrences_nodup (xs : List String) : (firstOccurrences xs).Nodup := by
  induction xs with
  | nil => simp [firstOccurrences]
  | cons x xs ih =>
    refine List.Nodup.cons ?_ (ih.filter _)
    intro hx
    have h2 := (List.mem_filter.mp hx).2
    simp at h2

/-- Updating a key that is present rewrites exactly that key's value. -/
theorem addToCategory_mem (ks : List String) (f : String → ℚ) (c : String)
    (amt : ℚ) (hc : c ∈ ks) (hnd : ks.Nodup) :
    addToCategory (ks.map fun k => (k, f k)) c amt =
      ks.map fun k => (k, if k = c then f k + amt else f k) := by
  induction ks with
  | nil => cases hc
  | cons k ks ih =>
    rcases List.nodup_cons.mp hnd with ⟨hk, hnd2⟩
    simp only [List.map_cons, addToCategory]
    by_cases hkc : k = c
    · subst hkc
      simp only [eq_self_iff_true, if_true]
      congr 1
      refine (List.map_congr_left ?_).symm
      intro x hx
      rw [if_neg]
      intro h
      exact hk (h ▸ hx)
    · have hc2 : c ∈ ks := (List.mem_cons.mp hc).resolve_left fun h => hkc h.symm
      rw [if_neg hkc, if_neg hkc, ih hc2 hnd2]

/-- Adding a fresh key appends it at the end. -/
theorem addToCategory_not_mem (ks : List String) (f : String → ℚ) (c : String)
    (amt : ℚ) (hc : c ∉ ks) :
    addToCategory (ks.map fun k => (k, f k)) c amt =
      ks.map (fun k => (k, f k)) ++ [(c, amt)] := by
  induction ks with
  | nil => rfl
  | cons k ks ih =>
    have hkc : ¬ k = c := fun h => hc (by rw [← h]; exact List.mem_cons_self k ks)
    have hc2 : c ∉ ks := fun h => hc (List.mem_cons_of_mem k h)
    simp only [List.map_cons, addToCategory]
    rw [if_neg hkc, ih hc2, List.cons_append]

/-- Splitting a `categorySum` at a cons cell. -/
theorem categorySum_cons (t : Transaction) (l : List Transaction) (c : String) :
    categorySum (t :: l) c =
      (if t.category = c then t.amount else 0) + categorySum l c := by
  simp only [categorySum, List.filter_cons]
  by_cases h : t.category = c
  · simp [h]
  · simp [h]

/-- The category-totals fold over a mapped accumulator: existing keys keep
their place and accumulate, new keys are appended in first-encounter order. -/
theorem foldl_addToCategory (l : List Transaction) (ks : List String)
    (f : String → ℚ) (hnd : ks.Nodup) :
    l.foldl (fun acc t => addToCategory acc t.category t.amount)
        (ks.map fun k => (k, f k)) =
      (ks ++ (firstOccurrences (l.map fun t => t.category)).filter
          fun c => decide (c ∉ ks)).map
        fun k => (k, (if k ∈ ks then f k else 0) + categorySum l k) := by
  induction l generalizing ks f hnd with
  | nil =>
    simp only [List.foldl_nil, List.map_nil, firstOccurrences, List.filter_nil,
      List.append_nil]
    refine List.map_congr_left ?_
    intro k hk
    rw [if_pos hk]
    simp [categorySum]
  | cons t l ih =>
    rw [List.foldl_cons]
    by_cases htc : t.category ∈ ks
    · rw [addToCategory_mem ks f t.category t.amount htc hnd,
        ih ks (fun k => if k = t.category then f k + t.amount else f k) hnd]
      have hkeys : (firstOccurrences ((t :: l).map fun t => t.category)).filter
            (fun c => decide (c ∉ ks)) =
          (firstOccurrences (l.map fun t => t.category)).filter
            fun c => decide (c ∉ ks) := by
        simp only [List.map_cons, firstOccurrences, List.filter_cons]
        rw [if_neg (by simp [htc]), List.filter_filter]
        refine List.filter_congr ?_
        intro c hcmem
        by_cases hcks : c ∈ ks
        · simp [hcks]
        · simp [hcks, show c ≠ t.category from fun h => hcks (h.symm ▸ htc)]
      rw [hkeys]
      refine List.map_congr_left ?_
      intro k hk
      rcases List.mem_append.mp hk with hks | hflt
      · rw [if_pos hks, if_pos hks, categorySum_cons]
        by_cases hk2 : k = t.category
        · subst hk2
          rw [if_pos rfl, if_pos rfl]
          simp [add_assoc]
        · rw [if_neg hk2, if_neg fun h => hk2 h.symm]
          simp
      · have hkks : k ∉ ks := by simpa using (List.mem_filter.mp hflt).2
        rw [if_neg hkks, if_neg hkks, categorySum_cons,
          if_neg fun h : t.category = k => hkks (h ▸ htc)]
        simp
    · rw [addToCategory_not_mem ks f t.category t.amount htc]
      have hacc : ks.map (fun k => (k, f k)) ++ [(t.category, t.amount)] =
          (ks ++ [t.category]).map
            fun k => (k, if k = t.category then t.amount else f k) := by
        rw [List.map_append]
        congr 1
        · refine (List.map_congr_left ?_).symm
          intro k hk
          rw [if_neg fun h : k = t.category => htc (h ▸ hk)]
        · simp
      have hnd2 : (ks ++ [t.category]).Nodup := by
        refine List.Nodup.append hnd (List.nodup_singleton _) ?_
        intro a ha hb
        rw [List.mem_singleton] at hb
        exact htc (hb ▸ ha)
      rw [hacc, ih (ks ++ [t.category]) _ hnd2]
      have hkeys : ks ++ (firstOccurrences ((t :: l).map fun t => t.category)).filter
            (fun c => decide (c ∉ ks)) =
          (ks ++ [t.category]) ++ (firstOccurrences (l.map fun t => t.category)).filter
            fun c => decide (c ∉ ks ++ [t.category]) := by
        simp only [List.map_cons, firstOccurrences, List.filter_cons]
        rw [if_pos (by simp [htc]), List.filter_filter, List.append_assoc,
          List.singleton_append]
        congr 2
        refine List.filter_congr ?_
        intro c hcmem
        by_cases hck : c = t.category
        · simp [hck]
        · by_cases hcks : c ∈ ks
          · simp [hck, hcks]
          · simp [hck, hcks]
      rw [← hkeys]
      refine List.map_congr_left ?_
      intro k hk
      rcases List.mem_append.mp hk with hks | hflt
      · have hk1 : k ∈ ks ++ [t.category] := List.mem_append.mpr (Or.inl hks)
        have hk2 : ¬ k = t.category := fun h => htc (h ▸ hks)
        rw [if_pos hk1, if_pos hks, if_neg hk2, categorySum_cons,
          if_neg fun h => hk2 h.symm]
        simp
      · have hkks : k ∉ ks := by simpa using (List.mem_filter.mp hflt).2
        by_cases hk2 : k = t.category
        · subst hk2
          rw [if_pos (List.mem_append.mpr (Or.inr (List.mem_singleton.mpr rfl))),
            if_neg hkks, if_pos rfl, categorySum_cons, if_pos rfl]
          simp
        · have hknot : k ∉ ks ++ [t.category] := by
            intro hmem
            rcases List.mem_append.mp hmem with h1 | h1
            · exact hkks h1
            · exact hk2 (List.mem_singleton.mp h1)
          rw [if_neg hknot, if_neg hkks, categorySum_cons,
            if_neg fun h => hk2 h.symm]
          simp

/-- `categoryTotals` lists each category once, in first-encounter order, with
the summed amount of that category. -/
theorem categoryTotals_eq (l : List Transaction) :
    categoryTotals l = (firstOccurrences (l.map fun t => t.category)).map
      fun c => (c, categorySum l c) := by
  have h := foldl_addToCategory l [] (fun _ => 0) List.nodup_nil
  simp at h
  rw [categoryTotals]
  exact h

/-- Unfolding lemma for the `topCategories` field. -/
theorem topCategories_def (ts : List Transaction) (r : DateRange) :
    (calculateFinancialSummary ts r).topCategories =
      (sortByAmountDesc
        ((categoryTotals ((ts.filter fun t => decide (inRange r t.date)).filter
            fun t => t.type == TxType.expense)).map fun p =>
          { category := p.1
            amount := p.2
            percentage :=
              if (calculateFinancialSummary ts r).totalExpenses > 0 then
                p.2 / (calculateFinancialSummary ts r).totalExpenses * 100
              else 0 })).take 5 := rfl

/-- Inserting into a descending list keeps it descending. -/
theorem insertByAmountDesc_pairwise (x : TopCategory) (l : List TopCategory)
    (h : l.Pairwise fun a b => b.amount ≤ a.amount) :
    (insertByAmountDesc x l).Pairwise fun a b => b.amount ≤ a.amount := by
  induction l with
  | nil => simp [insertByAmountDesc]
  | cons y ys ih =>
    rw [List.pairwise_cons] at h
    unfold insertByAmountDesc
    split_ifs with hle
    · refine List.Pairwise.cons ?_ (List.Pairwise.cons h.1 h.2)
      intro z hz
      rcases List.mem_cons.mp hz with rfl | hz2
      · exact hle
      · exact le_trans (h.1 z hz2) hle
    · refine List.Pairwise.cons ?_ (ih h.2)
      intro z hz
      rcases List.mem_cons.mp ((insertByAmountDesc_perm x ys).mem_iff.mp hz) with rfl | hz2
      · exact le_of_lt (lt_of_not_le hle)
      · exact h.1 z hz2

/-- The output of the descending sort is descending by `amount`. -/
theorem sortByAmountDesc_pairwise (l : List TopCategory) :
    (sortByAmountDesc l).Pairwise fun a b => b.amount ≤ a.amount := by
  induction l with
  | nil => exact List.Pairwise.nil
  | cons x xs ih => exact insertByAmountDesc_pairwise x (sortByAmountDesc xs) ih

/-- `insertByAmountDesc` is stable: it never reorders the elements of any
fixed amount, and places the new element in front of its amount class. -/
theorem insertByAmountDesc_filter (x : TopCategory) (l : List TopCategory) (v : ℚ) :
    (insertByAmountDesc x l).filter (fun e => decide (e.amount = v)) =
      if x.amount = v then x :: l.filter (fun e => decide (e.amount = v))
      else l.filter fun e => decide (e.amount = v) := by
  induction l with
  | nil =>
    simp only [insertByAmountDesc, List.filter_cons, List.filter_nil]
    by_cases h : x.amount = v <;> simp [h]
  | cons y ys ih =>
    by_cases hle : y.amount ≤ x.amount
    · rw [insertByAmountDesc, if_pos hle]
      by_cases hx : x.amount = v <;> by_cases hy : y.amount = v <;>
        simp [hx, hy, List.filter_cons]
    · rw [insertByAmountDesc, if_neg hle, List.filter_cons, ih]
      by_cases hx : x.amount = v <;> by_cases hy : y.amount = v
      · exact absurd (le_of_eq (hy.trans hx.symm)) hle
      · simp [hx, hy, List.filter_cons]
      · simp [hx, hy, List.filter_cons]
      · simp [hx, hy, List.filter_cons]

/-- The descending sort is stable: the subsequence of entries of any fixed
amount is unchanged, so first-encountered categories win ties. -/
theorem sortByAmountDesc_filter (l : List TopCategory) (v : ℚ) :
    (sortByAmountDesc l).filter (fun e => decide (e.amount = v)) =
      l.filter fun e => decide (e.amount = v) := by
  induction l with
  | nil => rfl
  | cons x xs ih =>
    rw [sortByAmountDesc, insertByAmountDesc_filter, List.filter_cons]
    by_cases h : x.amount = v <;> simp [h, ih]

/-- C5: `topCategories` is obtained by grouping the in-range expense
transactions by category in first-encounter order, summing amounts per group,
attaching `percentage = amount / totalExpenses × 100` (0 on zero expenses),
stable-sorting descending by summed amount — so amount ties keep
first-encounter order — and truncating to at most 5 entries. -/
theorem C5_top_categories (ts : List Transaction) (r : DateRange) :
    (calculateFinancialSummary ts r).topCategories =
      (sortByAmountDesc
        ((firstOccurrences (((ts.filter fun t => decide (inRange r t.date)).filter
            fun t => t.type == TxType.expense).map fun t => t.category)).map
          fun c =>
            { category := c
              amount := categorySum ((ts.filter fun t => decide (inRange r t.date)).filter
                fun t => t.type == TxType.expense) c
              percentage :=
                if (calculateFinancialSummary ts r).totalExpenses > 0 then
                  categorySum ((ts.filter fun t => decide (inRange r t.date)).filter
                    fun t => t.type == TxType.expense) c /
                    (calculateFinancialSummary ts r).totalExpenses * 100
                else 0 })).take 5 ∧
    (calculateFinancialSummary ts r).topCategories.length ≤ 5 ∧
    ((calculateFinancialSummary ts r).topCategories.Pairwise
      fun a b => b.amount ≤ a.amount) ∧
    (∀ v : ℚ, ∀ l : List TopCategory,
      (sortByAmountDesc l).filter (fun e => decide (e.amount = v)) =
        l.filter fun e => decide (e.amount = v)) := by
  refine ⟨?_, ?_, ?_, fun v l => sortByAmountDesc_filter l v⟩
  · rw [topCategories_def, categoryTotals_eq, List.map_map]
    rfl
  · rw [topCategories_def]
    exact List.length_take_le 5 _
  · rw [topCategories_def]
    exact List.Pairwise.sublist (List.take_sublist 5 _) (sortByAmountDesc_pairwise _)

/-- Unfolding lemma for the `totalExpenses` field. -/
theorem totalExpenses_def (ts : List Transaction) (r : DateRange) :
    (calculateFinancialSummary ts r).totalExpenses =
      sumAmounts ((ts.filter fun t => decide (inRange r t.date)).filter
        fun t => t.type == TxType.expense) := rfl

/-- Unfolding lemma for the `netSavings` field. -/
theorem netSavings_def (ts : List Transaction) (r : DateRange) :
    (calculateFinancialSummary ts r).netSavings =
      (calculateFinancialSummary ts r).totalIncome -
        (calculateFinancialSummary ts r).totalExpenses := rfl

/-- C8 (amended): `calculateFinancialSummary` applied to a permutation of the
transaction list agrees on `totalIncome`, `totalExpenses`, `netSavings` and
`savingsRate`; and whenever the in-range expense transactions span at most 5
distinct categories — so the top-5 truncation drops nothing — the two
`topCategories` lists are permutations of each other (they contain the same
triples, reordered only within equal amounts). -/
theorem C8_order_independence (l₁ l₂ : List Transaction) (r : DateRange)
    (hp : l₁.Perm l₂) :
    (calculateFinancialSummary l₁ r).totalIncome =
      (calculateFinancialSummary l₂ r).totalIncome ∧
    (calculateFinancialSummary l₁ r).totalExpenses =
      (calculateFinancialSummary l₂ r).totalExpenses ∧
    (calculateFinancialSummary l₁ r).netSavings =
      (calculateFinancialSummary l₂ r).netSavings ∧
    (calculateFinancialSummary l₁ r).savingsRate =
      (calculateFinancialSummary l₂ r).savingsRate ∧
    ((firstOccurrences (((l₁.filter fun t => decide (inRange r t.date)).filter
        fun t => t.type == TxType.expense).map fun t => t.category)).length ≤ 5 →
      (calculateFinancialSummary l₁ r).topCategories.Perm
        (calculateFinancialSummary l₂ r).topCategories) := by
  have hexp : (((l₁.filter fun t => decide (inRange r t.date)).filter
        fun t => t.type == TxType.expense)).Perm
      ((l₂.filter fun t => decide (inRange r t.date)).filter
        fun t => t.type == TxType.expense) :=
    (hp.filter _).filter _
  have hti : (calculateFinancialSummary l₁ r).totalIncome =
      (calculateFinancialSummary l₂ r).totalIncome := by
    rw [totalIncome_def, totalIncome_def, sumAmounts_eq_sum, sumAmounts_eq_sum]
    exact (((hp.filter _).filter _).map _).sum_eq
  have hte : (calculateFinancialSummary l₁ r).totalExpenses =
      (calculateFinancialSummary l₂ r).totalExpenses := by
    rw [totalExpenses_def, totalExpenses_def, sumAmounts_eq_sum, sumAmounts_eq_sum]
    exact (hexp.map _).sum_eq
  have hns : (calculateFinancialSummary l₁ r).netSavings =
      (calculateFinancialSummary l₂ r).netSavings := by
    rw [netSavings_def, netSavings_def, hti, hte]
  refine ⟨hti, hte, hns, ?_, ?_⟩
  · rw [savingsRate_def, savingsRate_def, hti, hns]
  · intro hlen
    have hcs : ∀ c, categorySum ((l₁.filter fun t => decide (inRange r t.date)).filter
          fun t => t.type == TxType.expense) c =
        categorySum ((l₂.filter fun t => decide (inRange r t.date)).filter
          fun t => t.type == TxType.expense) c := by
      intro c
      unfold categorySum
      exact ((hexp.filter _).map _).sum_eq
    have hFperm : (firstOccurrences (((l₁.filter fun t => decide (inRange r t.date)).filter
          fun t => t.type == TxType.expense).map fun t => t.category)).Perm
        (firstOccurrences (((l₂.filter fun t => decide (inRange r t.date)).filter
          fun t => t.type == TxType.expense).map fun t => t.category)) := by
      refine (List.perm_ext_iff_of_nodup (firstOccurrences_nodup _)
        (firstOccurrences_nodup _)).mpr ?_
      intro c
      rw [mem_firstOccurrences, mem_firstOccurrences]
      exact (hexp.map _).mem_iff
    have hEperm : ((firstOccurrences (((l₁.filter fun t => decide (inRange r t.date)).filter
          fun t => t.type == TxType.expense).map fun t => t.category)).map
        fun c : String =>
          ({ category := c
             amount := categorySum ((l₁.filter fun t => decide (inRange r t.date)).filter
               fun t => t.type == TxType.expense) c
             percentage :=
               if (calculateFinancialSummary l₁ r).totalExpenses > 0 then
                 categorySum ((l₁.filter fun t => decide (inRange r t.date)).filter
                   fun t => t.type == TxType.expense) c /
                   (calculateFinancialSummary l₁ r).totalExpenses * 100
               else 0 } : TopCategory)).Perm
        ((firstOccurrences (((l₂.filter fun t => decide (inRange r t.date)).filter
          fun t => t.type == TxType.expense).map fun t => t.category)).map
        fun c : String =>
          ({ category := c
             amount := categorySum ((l₂.filter fun t => decide (inRange r t.date)).filter
               fun t => t.type == TxType.expense) c
             percentage :=
               if (calculateFinancialSummary l₂ r).totalExpenses > 0 then
                 categorySum ((l₂.filter fun t => decide (inRange r t.date)).filter
                   fun t => t.type == TxType.expense) c /
                   (calculateFinancialSummary l₂ r).totalExpenses * 100
               else 0 } : TopCategory)) := by
      have hfun : (fun c : String =>
          ({ category := c
             amount := categorySum ((l₁.filter fun t => decide (inRange r t.date)).filter
               fun t => t.type == TxType.expense) c
             percentage :=
               if (calculateFinancialSummary l₁ r).totalExpenses > 0 then
                 categorySum ((l₁.filter fun t => decide (inRange r t.date)).filter
                   fun t => t.type == TxType.expense) c /
                   (calculateFinancialSummary l₁ r).totalExpenses * 100
               else 0 } : TopCategory)) =
          fun c : String =>
          ({ category := c
             amount := categorySum ((l₂.filter fun t => decide (inRange r t.date)).filter
               fun t => t.type == TxType.expense) c
             percentage :=
               if (calculateFinancialSummary l₂ r).totalExpenses > 0 then
                 categorySum ((l₂.filter fun t => decide (inRange r t.date)).filter
                   fun t => t.type == TxType.expense) c /
                   (calculateFinancialSummary l₂ r).totalExpenses * 100
               else 0 } : TopCategory) := by
        funext c
        rw [hcs c, hte]
      rw [hfun]
      exact hFperm.map _
    have htop1 : (calculateFinancialSummary l₁ r).topCategories =
        sortByAmountDesc ((firstOccurrences (((l₁.filter fun t =>
            decide (inRange r t.date)).filter
            fun t => t.type == TxType.expense).map fun t => t.category)).map
          fun c : String =>
            ({ category := c
               amount := categorySum ((l₁.filter fun t => decide (inRange r t.date)).filter
                 fun t => t.type == TxType.expense) c
               percentage :=
                 if (calculateFinancialSummary l₁ r).totalExpenses > 0 then
                   categorySum ((l₁.filter fun t => decide (inRange r t.date)).filter
                     fun t => t.type == TxType.expense) c /
                     (calculateFinancialSummary l₁ r).totalExpenses * 100
                 else 0 } : TopCategory)) := by
      rw [topCategories_def, categoryTotals_eq, List.map_map]
      refine List.take_of_length_le ?_
      rw [(sortByAmountDesc_perm _).length_eq, List.length_map]
      exact hlen
    have hlen2 : (firstOccurrences (((l₂.filter fun t => decide (inRange r t.date)).filter
        fun t => t.type == TxType.expense).map fun t => t.category)).length ≤ 5 := by
      rw [← hFperm.length_eq]
      exact hlen
    have htop2 : (calculateFinancialSummary l₂ r).topCategories =
        sortByAmountDesc ((firstOccurrences (((l₂.filter fun t =>
            decide (inRange r t.date)).filter
            fun t => t.type == TxType.expense).map fun t => t.category)).map
          fun c : String =>
            ({ category := c
               amount := categorySum ((l₂.filter fun t => decide (inRange r t.date)).filter
                 fun t => t.type == TxType.expense) c
               percentage :=
                 if (calculateFinancialSummary l₂ r).totalExpenses > 0 then
                   categorySum ((l₂.filter fun t => decide (inRange r t.date)).filter
                     fun t => t.type == TxType.expense) c /
                     (calculateFinancialSummary l₂ r).totalExpenses * 100
                 else 0 } : TopCategory)) := by
      rw [topCategories_def, categoryTotals_eq, List.map_map]
      refine List.take_of_length_le ?_
      rw [(sortByAmountDesc_perm _).length_eq, List.length_map]
      exact hlen2
    rw [htop1, htop2]
    exact ((sortByAmountDesc_perm _).trans hEperm).trans (sortByAmountDesc_perm _).symm

/-- Witness for C8 at a concrete two-transaction swap. -/
theorem C8_order_independence_witness :
    (calculateFinancialSummary
        [⟨"1", 1000, TxType.income, ⟨2024, 0, 5, 0⟩, "Salary", ""⟩,
         ⟨"2", 300, TxType.expense, ⟨2024, 0, 10, 0⟩, "Food", ""⟩]
        ⟨⟨2024, 0, 1, 0⟩, ⟨2024, 0, 31, 86399999⟩⟩).totalIncome =
      (calculateFinancialSummary
        [⟨"2", 300, TxType.expense, ⟨2024, 0, 10, 0⟩, "Food", ""⟩,
         ⟨"1", 1000, TxType.income, ⟨2024, 0, 5, 0⟩, "Salary", ""⟩]
        ⟨⟨2024, 0, 1, 0⟩, ⟨2024, 0, 31, 86399999⟩⟩).totalIncome :=
  (C8_order_independence
    [⟨"1", 1000, TxType.income, ⟨2024, 0, 5, 0⟩, "Salary", ""⟩,
     ⟨"2", 300, TxType.expense, ⟨2024, 0, 10, 0⟩, "Food", ""⟩]
    [⟨"2", 300, TxType.expense, ⟨2024, 0, 10, 0⟩, "Food", ""⟩,
     ⟨"1", 1000, TxType.income, ⟨2024, 0, 5, 0⟩, "Salary", ""⟩]
    ⟨⟨2024, 0, 1, 0⟩, ⟨2024, 0, 31, 86399999⟩⟩
    (List.Perm.swap _ _ _)).1

/-- Six one-unit expenses in six distinct categories within January 2024: an
amount tie across more categories than the top-5 cut. -/
def sixTiedExpenses : List Transaction :=
  [⟨"1", 1, TxType.expense, ⟨2024, 0, 10, 0⟩, "A", ""⟩,
   ⟨"2", 1, TxType.expense, ⟨2024, 0, 11, 0⟩, "B", ""⟩,
   ⟨"3", 1, TxType.expense, ⟨2024, 0, 12, 0⟩, "C", ""⟩,
   ⟨"4", 1, TxType.expense, ⟨2024, 0, 13, 0⟩, "D", ""⟩,
   ⟨"5", 1, TxType.expense, ⟨2024, 0, 14, 0⟩, "E", ""⟩,
   ⟨"6", 1, TxType.expense, ⟨2024, 0, 15, 0⟩, "F", ""⟩]

/-- January 2024 as a date range. -/
def january2024 : DateRange := ⟨⟨2024, 0, 1, 0⟩, ⟨2024, 0, 31, 86399999⟩⟩

/-- Evaluation of the six-way tie in input order: the first five categories
survive the cut. -/
theorem sixTiedExpenses_top :
    (calculateFinancialSummary sixTiedExpenses january2024).topCategories =
      [⟨"A", 1, 50/3⟩, ⟨"B", 1, 50/3⟩, ⟨"C", 1, 50/3⟩, ⟨"D", 1, 50/3⟩, ⟨"E", 1, 50/3⟩] := by
  norm_num [sixTiedExpenses, january2024, calculateFinancialSummary, sumAmounts,
    categoryTotals, addToCategory, sortByAmountDesc, insertByAmountDesc, inRange,
    JSDate.leP, JSDate.monthCode, List.filter, List.foldl]

/-- Evaluation of the six-way tie in reversed order: a different five survive. -/
theorem sixTiedExpenses_reverse_top :
    (calculateFinancialSummary sixTiedExpenses.reverse january2024).topCategories =
      [⟨"F", 1, 50/3⟩, ⟨"E", 1, 50/3⟩, ⟨"D", 1, 50/3⟩, ⟨"C", 1, 50/3⟩, ⟨"B", 1, 50/3⟩] := by
  norm_num [sixTiedExpenses, january2024, calculateFinancialSummary, sumAmounts,
    categoryTotals, addToCategory, sortByAmountDesc, insertByAmountDesc, inRange,
    JSDate.leP, JSDate.monthCode, List.filter, List.foldl, List.reverse, List.reverseAux]

/-- Counterexample to C8 as stated: reversing six equal-amount expenses in six
categories changes which five categories appear in `topCategories` at all —
the two lists differ as sets of triples (category "A" versus "F"), not merely
in the ordering of equal-amount entries. -/
theorem C8_order_independence_counterexample :
    (sixTiedExpenses.reverse.Perm sixTiedExpenses) ∧
    ¬ ((calculateFinancialSummary sixTiedExpenses january2024).topCategories.Perm
        ((calculateFinancialSummary sixTiedExpenses.reverse january2024).topCategories)) := by
  refine ⟨List.reverse_perm sixTiedExpenses, ?_⟩
  intro h
  rw [sixTiedExpenses_top, sixTiedExpenses_reverse_top] at h
  have := h.mem_iff.mp (List.mem_cons_self _ _)
  simp at this

/-- Witness for C1: the empty-input clause at a concrete range. -/
theorem C1_summary_totals_witness :
    calculateFinancialSummary [] ⟨⟨2024, 0, 1, 0⟩, ⟨2024, 0, 31, 86399999⟩⟩ =
      { totalIncome := 0, totalExpenses := 0, netSavings := 0, savingsRate := 0,
        topCategories := [] } :=
  (C1_summary_totals [] ⟨⟨2024, 0, 1, 0⟩, ⟨2024, 0, 31, 86399999⟩⟩).2.2.2.2

/-- Witness for C4 at a concrete empty input: zero change is `stable`. -/
theorem C4_trend_classification_witness :
    (calculateSpendingTrends [] Period.month ⟨2024, 0, 15, 0⟩).trending = Trending.stable ↔
      |(calculateSpendingTrends [] Period.month ⟨2024, 0, 15, 0⟩).changePercent| ≤ 5 :=
  (C4_trend_classification [] Period.month ⟨2024, 0, 15, 0⟩).2.2

/-- Witness for C5 at a concrete input: at most five top categories. -/
theorem C5_top_categories_witness :
    (calculateFinancialSummary
      [⟨"1", 300, TxType.expense, ⟨2024, 0, 10, 0⟩, "Food", ""⟩]
      ⟨⟨2024, 0, 1, 0⟩, ⟨2024, 0, 31, 86399999⟩⟩).topCategories.length ≤ 5 :=
  (C5_top_categories
    [⟨"1", 300, TxType.expense, ⟨2024, 0, 10, 0⟩, "Food", ""⟩]
    ⟨⟨2024, 0, 1, 0⟩, ⟨2024, 0, 31, 86399999⟩⟩).2.1

/-- Witness for C9 at a concrete input: one result per budget. -/
theorem C9_budget_shape_witness :
    (calculateBudgetPerformance []
      [⟨"Food", 100, 0, Period.month⟩] Period.month ⟨2024, 0, 15, 0⟩).length =
      [(⟨"Food", 100, 0, Period.month⟩ : BudgetData)].length :=
  (C9_budget_shape [] [⟨"Food", 100, 0, Period.month⟩] Period.month ⟨2024, 0, 15, 0⟩).1

/-- Witness for C10 at a concrete input: at most four insights. -/
theorem C10_insight_shape_witness :
    (generateSpendingInsights ⟨0, 0, 0, 0, []⟩ [] ⟨0, 0, 0, Trending.stable⟩).length ≤ 4 :=
  (C10_insight_shape ⟨0, 0, 0, 0, []⟩ [] ⟨0, 0, 0, Trending.stable⟩).1

end FinancialTool
